import Mathlib

/-!
Verification development for the interview-session orchestrator of the
interview-bot repository.

The embedding covers:

* the client-side session orchestrator implemented in the interview page
  (`pages/interview.tsx`): its `InterviewState`, the four socket listeners
  (`questions_generated`, `question_audio`, `answer_analyzed`,
  `interview_complete`), `handleAudioData`, `moveToNextQuestion`,
  `playQuestionAudio`, the skip-audio buttons, and the `AudioRecorder`
  start/stop logic together with its `disabled` prop;
* the connection context (`contexts/WebSocketContext.tsx`): `isConnected`
  and `connectionError` and the connect/disconnect handlers;
* the simulated transport double (`MockWebSocket` in the mock-mode
  `WebSocketContext`), including its fixed artificial delays;
* the localStorage-loading effect and the start-interview guard of the
  interview page.

Modelling notes, each reflecting the source exactly:

* Audio blobs are opaque; they are modelled as natural-number tokens.

* React closure capture is modelled explicitly.  The start/listen effect of
  the interview page has dependency array
  `[socket, isConnected, parsedResume, parsedJobDescription, router]`, so the
  listeners it registers close over the `interviewState` value of the render
  in which the effect last ran.  In particular the `answer_analyzed` listener
  schedules `setTimeout(() => moveToNextQuestion(), 2000)` where
  `moveToNextQuestion` reads `interviewState.currentQuestionIndex` and
  `interviewState.questions` from that captured render — not the current
  state.  The captured pair is modelled by the fields `snapQuestions` /
  `snapIndex`, refreshed exactly when the effect (re)runs (initial run and on
  reconnect).  State writes inside the handlers use the functional
  `setInterviewState(prev => ...)` form and therefore act on the current
  state; only the plain reads are stale.

* Similarly, `MediaRecorder.onstop` is installed when recording starts, so
  the `handleAudioData` invocation on stop reads the `questions` /
  `currentQuestionIndex` of the render in which recording started; this is
  modelled by `recSnapQuestions` / `recSnapIndex`, captured by the
  start-recording transition.

* UI-originated events (skip click, record start/stop click) are only
  possible while the main interview screen is rendered: the page renders a
  dedicated full screen instead when `connectionError` is set, when
  `isConnected` is false, when `isGeneratingQuestions` is true or when
  `isComplete` is true.  This rendering condition is the `uiActive` guard.
  Incoming socket events are only handled while the listeners are attached,
  which requires `isConnected` (the effect returns early otherwise and its
  cleanup removes the listeners).  The pending `setTimeout` callbacks
  (modelled by `pendingAdvances` and the `advanceTimer` event) fire
  regardless of connection state, as timeouts are never cleared.

* Randomised values produced by the mock transport (`Math.random()`-based
  scores and counts) and log statements are irrelevant to every claim; the
  mock analysis event is modelled by the identifier of the submitted
  question it was built from together with a score field.
-/

set_option maxRecDepth 40000

namespace InterviewBot

/-- A question as declared in the interview page (interface `Question`):
`id`, `text`, `type` (renamed `qtype` here) and an optional audio artifact.
The `difficulty` and `estimatedTime` fields present in the mock data are
never read by the orchestrator and are omitted. -/
structure Question where
  id : String
  text : String
  qtype : String
  audioBlob : Option Nat := none
deriving Repr, DecidableEq, Inhabited

/-- Payload of an `answer_analyzed` event (interface `AnswerAnalysis`,
fields beyond the identifier and score are never read by the interview
page and are omitted). -/
structure AnswerAnalysis where
  questionId : String
  score : Int
deriving Repr, DecidableEq

/-- Payload of an `interview_complete` event (interface `InterviewResults`;
the nested per-question array and micro-drills are never read by the
interview page and are omitted). -/
structure InterviewResults where
  overallScore : Int
  strengths : List String
  improvements : List String
  followUpQuestion : String
deriving Repr, DecidableEq

/-- Messages the client emits on the socket. -/
inductive SocketMsg where
  | startInterview
  | submitAnswer (questionId : String) (audioBlob : Nat)
  | completeInterview
deriving Repr, DecidableEq

/-- Events driving the client: the four server-sent socket events, the
2-second advance timeout firing, playback completion, the three
user-interface actions, and the transport connect/disconnect
notifications. -/
inductive ClientEvent where
  | questionsGenerated (qs : List Question)
  | questionAudio (questionId : String) (audioBlob : Nat)
  | answerAnalyzed (a : AnswerAnalysis)
  | interviewComplete (r : InterviewResults)
  | advanceTimer
  | playbackComplete
  | skipAudio
  | startRecording
  | stopRecording (audioBlob : Nat)
  | disconnect
  | connect
deriving Repr, DecidableEq

/-- The complete client state: the `InterviewState` record of the interview
page (first seven fields), the connection context state, the recorder
state, the number of pending `moveToNextQuestion` timeouts, the state
snapshots captured by the listener effect and by the recorder (see the
module docstring), and the results stored on completion. -/
structure ClientState where
  questions : List Question
  currentQuestionIndex : Nat
  answers : List (String × Nat)
  isGeneratingQuestions : Bool
  isPlayingQuestion : Bool
  isProcessingAnswer : Bool
  isComplete : Bool
  isConnected : Bool
  connectionError : Option String
  isRecording : Bool
  pendingAdvances : Nat
  snapQuestions : List Question
  snapIndex : Nat
  recSnapQuestions : List Question
  recSnapIndex : Nat
  storedResults : Option InterviewResults
deriving Repr, DecidableEq

/-- The main interview screen is rendered (so its buttons exist) exactly
when no connection error is shown, the socket is connected, questions are
not being generated and the interview is not complete; the page otherwise
renders a dedicated full screen without the recorder or skip buttons. -/
def uiActive (s : ClientState) : Bool :=
  s.connectionError.isNone && s.isConnected &&
    !s.isGeneratingQuestions && !s.isComplete

/-- The `disabled` prop passed to `AudioRecorder`:
`interviewState.isProcessingAnswer || interviewState.isPlayingQuestion`. -/
def recorderDisabled (s : ClientState) : Bool :=
  s.isProcessingAnswer || s.isPlayingQuestion

/-- Recording can be started: the recorder is rendered and its `disabled`
prop is false. -/
def recordingEnabled (s : ClientState) : Bool :=
  uiActive s && !recorderDisabled s

/-- `playQuestionAudio(question)`: sets `isPlayingQuestion` when the
question has an audio blob, otherwise does nothing. -/
def playQuestionAudio (s : ClientState) (q : Question) : ClientState :=
  if q.audioBlob.isSome then { s with isPlayingQuestion := true } else s

/-- The `questions_generated` listener: stores the batch (whatever its
size — there is no size check), clears `isGeneratingQuestions`, sets
`isPlayingQuestion`, and auto-plays the first question when the batch is
non-empty.  The current question index is left untouched (it is 0 in every
run reaching this handler for the first time). -/
def onQuestionsGenerated (s : ClientState) (qs : List Question) :
    ClientState × List SocketMsg :=
  let s1 := { s with questions := qs, isGeneratingQuestions := false,
                     isPlayingQuestion := true }
  match qs.head? with
  | some q => (playQuestionAudio s1 q, [])
  | none => (s1, [])

/-- The `question_audio` listener: attaches the blob to the matching
question. -/
def onQuestionAudio (s : ClientState) (questionId : String) (blob : Nat) :
    ClientState × List SocketMsg :=
  ({ s with questions := s.questions.map fun q =>
      if q.id == questionId then { q with audioBlob := some blob } else q }, [])

/-- The `answer_analyzed` listener: clears `isProcessingAnswer` and
schedules `moveToNextQuestion` 2 seconds later.  The payload — in
particular its question identifier — is not inspected at all. -/
def onAnswerAnalyzed (s : ClientState) (_a : AnswerAnalysis) :
    ClientState × List SocketMsg :=
  ({ s with isProcessingAnswer := false,
            pendingAdvances := s.pendingAdvances + 1 }, [])

/-- The `interview_complete` listener: marks the interview complete and
stores the results payload (sessionStorage `currentInterviewResults`). -/
def onInterviewComplete (s : ClientState) (r : InterviewResults) :
    ClientState × List SocketMsg :=
  ({ s with isComplete := true, storedResults := some r }, [])

/-- `moveToNextQuestion` as invoked from the scheduled timeout: it reads
`currentQuestionIndex` and `questions` from the listener-effect snapshot
(`snapQs`/`snapIdx`), while its `setInterviewState(prev => ...)` write and
the `complete_interview` emission act normally.  `playQuestionAudio` on the
(snapshot) next question only re-asserts `isPlayingQuestion := true`, which
the same state update already set. -/
def moveToNextQuestion (snapQs : List Question) (snapIdx : Nat)
    (s : ClientState) : ClientState × List SocketMsg :=
  let nextIndex := snapIdx + 1
  if nextIndex < snapQs.length then
    let s1 := { s with currentQuestionIndex := nextIndex,
                       isPlayingQuestion := true }
    match snapQs.get? nextIndex with
    | some q => (playQuestionAudio s1 q, [])
    | none => (s1, [])
  else
    (s, [SocketMsg.completeInterview])

/-- One pending 2-second timeout fires, if any is pending. -/
def advanceTimerFire (s : ClientState) : ClientState × List SocketMsg :=
  if s.pendingAdvances > 0 then
    moveToNextQuestion s.snapQuestions s.snapIndex
      { s with pendingAdvances := s.pendingAdvances - 1 }
  else (s, [])

/-- `handleAudioData`: looks up the current question in the state captured
when recording started, emits `submit_answer` for it, records the answer
blob under its identifier (object-spread insert: newest binding wins) and
sets `isProcessingAnswer`.  With no current question it does nothing. -/
def handleAudioData (snapQs : List Question) (snapIdx : Nat)
    (s : ClientState) (blob : Nat) : ClientState × List SocketMsg :=
  match snapQs.get? snapIdx with
  | none => (s, [])
  | some q =>
      ({ s with answers := (q.id, blob) :: s.answers,
                isProcessingAnswer := true },
       [SocketMsg.submitAnswer q.id blob])

/-- A click on either skip-audio button: the buttons are rendered only
while `isPlayingQuestion` is true (and the main screen is up); the click
only clears `isPlayingQuestion` and sends nothing. -/
def skipAudioClick (s : ClientState) : ClientState × List SocketMsg :=
  if uiActive s && s.isPlayingQuestion then
    ({ s with isPlayingQuestion := false }, [])
  else (s, [])

/-- A click on the record button while idle: `startRecording` returns
early when the stream is missing or `disabled` is set (microphone
permission is assumed granted); otherwise recording starts and the
`onstop` closure captures the current questions and index. -/
def startRecordingClick (s : ClientState) : ClientState × List SocketMsg :=
  if uiActive s && !s.isRecording && !recorderDisabled s then
    ({ s with isRecording := true,
              recSnapQuestions := s.questions,
              recSnapIndex := s.currentQuestionIndex }, [])
  else (s, [])

/-- A click on the record button while recording: `stopRecording`
finalises the blob and `onstop` delivers it to the `handleAudioData`
captured at recording start. -/
def stopRecordingClick (s : ClientState) (blob : Nat) :
    ClientState × List SocketMsg :=
  if uiActive s && s.isRecording then
    handleAudioData s.recSnapQuestions s.recSnapIndex
      { s with isRecording := false } blob
  else (s, [])

/-- The body of the start/listen effect of the interview page (it runs
when socket, connection and both parsed profiles are available — all
assumed present in session modelling): it sets `isGeneratingQuestions`,
emits `start_interview`, and (re)registers the four listeners, capturing
the current questions and index in their closures. -/
def startListenEffect (s : ClientState) : ClientState × List SocketMsg :=
  ({ s with isGeneratingQuestions := true,
            snapQuestions := s.questions,
            snapIndex := s.currentQuestionIndex },
   [SocketMsg.startInterview])

/-- The socket `disconnect` handler of the connection context: it only
clears `isConnected`.  No error is recorded and no session field is
touched; the listener effect cleans up (subsequent socket events are
dropped until reconnection). -/
def onDisconnect (s : ClientState) : ClientState × List SocketMsg :=
  ({ s with isConnected := false }, [])

/-- The socket `connect` handler plus the re-run of the start/listen
effect it triggers: `isConnected` is set, `connectionError` cleared, and
the effect re-emits `start_interview` with fresh listener snapshots. -/
def onConnect (s : ClientState) : ClientState × List SocketMsg :=
  startListenEffect { s with isConnected := true, connectionError := none }

/-- One step of the client.  Socket events require the listeners to be
attached (`isConnected`); UI events require the main screen
(`uiActive`, checked inside the respective handlers); the advance timeout
fires unconditionally. -/
def clientStep (s : ClientState) : ClientEvent → ClientState × List SocketMsg
  | ClientEvent.questionsGenerated qs =>
      if s.isConnected then onQuestionsGenerated s qs else (s, [])
  | ClientEvent.questionAudio qid blob =>
      if s.isConnected then onQuestionAudio s qid blob else (s, [])
  | ClientEvent.answerAnalyzed a =>
      if s.isConnected then onAnswerAnalyzed s a else (s, [])
  | ClientEvent.interviewComplete r =>
      if s.isConnected then onInterviewComplete s r else (s, [])
  | ClientEvent.advanceTimer => advanceTimerFire s
  | ClientEvent.playbackComplete =>
      if uiActive s then ({ s with isPlayingQuestion := false }, []) else (s, [])
  | ClientEvent.skipAudio => skipAudioClick s
  | ClientEvent.startRecording => startRecordingClick s
  | ClientEvent.stopRecording blob => stopRecordingClick s blob
  | ClientEvent.disconnect => onDisconnect s
  | ClientEvent.connect => onConnect s

/-- Run a sequence of events, collecting all emitted messages in order. -/
def clientRun (s : ClientState) : List ClientEvent → ClientState × List SocketMsg
  | [] => (s, [])
  | e :: es =>
      let (s1, ms) := clientStep s e
      let (s2, ms') := clientRun s1 es
      (s2, ms ++ ms')

/-- The client state just after the start/listen effect first ran: the
initial `InterviewState` of the page (empty questions, index 0, no
answers, generating, nothing playing or processing, not complete) with a
connected error-free socket, idle recorder, no pending timeouts, and the
listener snapshot taken from that pre-batch state. -/
def initialClientState : ClientState :=
  { questions := []
    currentQuestionIndex := 0
    answers := []
    isGeneratingQuestions := true
    isPlayingQuestion := false
    isProcessingAnswer := false
    isComplete := false
    isConnected := true
    connectionError := none
    isRecording := false
    pendingAdvances := 0
    snapQuestions := []
    snapIndex := 0
    recSnapQuestions := []
    recSnapIndex := 0
    storedResults := none }

/-- States reachable from the freshly started session by client steps. -/
inductive Reachable : ClientState → Prop where
  | init : Reachable initialClientState
  | step {s : ClientState} (e : ClientEvent) :
      Reachable s → Reachable (clientStep s e).1

/-- The fixed batch of 8 questions served by the mock transport
(`lib/mockData.ts`, `mockQuestions`; the unread `difficulty` and
`estimatedTime` fields are omitted, see `Question`). -/
def mockQuestions : List Question :=
  [ { id := "q1_behavioral_challenge"
      text := "Tell me about a time when you faced a significant technical challenge in a project. How did you approach it and what was the outcome?"
      qtype := "behavioral" },
    { id := "q2_technical_algorithms"
      text := "Explain how you would optimize a slow database query. Walk me through your debugging and optimization process."
      qtype := "technical" },
    { id := "q3_behavioral_teamwork"
      text := "Describe a situation where you had to work with a difficult team member. How did you handle it?"
      qtype := "behavioral" },
    { id := "q4_technical_architecture"
      text := "How would you design a scalable microservices architecture for an e-commerce platform?"
      qtype := "technical" },
    { id := "q5_leadership_conflict"
      text := "Tell me about a time when you had to make a difficult decision that affected your team. What was your thought process?"
      qtype := "leadership" },
    { id := "q6_behavioral_failure"
      text := "Describe a project that didn\x27t go as planned. What did you learn from the experience?"
      qtype := "behavioral" },
    { id := "q7_technical_debugging"
      text := "Walk me through how you would debug a production issue where users are reporting intermittent errors."
      qtype := "technical" },
    { id := "q8_leadership_growth"
      text := "How do you approach mentoring junior developers? Give me an example of someone you\x27ve helped grow."
      qtype := "leadership" } ]

/-- The fixed results payload served by the mock transport on completion
(`lib/mockData.ts`, `mockInterviewResults`; the nested per-question array
and micro-drills are never read by the interview page and are omitted, see
`InterviewResults`). -/
def mockInterviewResults : InterviewResults :=
  { overallScore := 78
    strengths :=
      [ "Strong use of STAR method in behavioral questions",
        "Clear technical knowledge and systematic thinking",
        "Good communication and storytelling ability",
        "Specific examples from real experience" ]
    improvements :=
      [ "Include more quantifiable results and metrics",
        "Reduce filler words (averaging 8 per answer)",
        "Add results component to all STAR answers",
        "Practice conciseness - some answers were lengthy" ]
    followUpQuestion := "Can you tell me about a time when you had to learn a completely new technology on a tight deadline? How did you approach the learning process and what was the outcome?" }

/-- State of the simulated transport double (`MockWebSocket`): the
question list and whether the interview has been started. -/
structure MockState where
  questions : List Question
  interviewStarted : Bool
deriving Repr, DecidableEq

/-- Messages a driver can send to the mock (its `emit` vocabulary). -/
inductive MockClientMsg where
  | startInterview
  | requestQuestionAudio (questionId : String)
  | submitAnswer (questionId : String) (audioBlob : Nat)
  | completeInterview
deriving Repr, DecidableEq

/-- Events the mock triggers back to the client.  `answerAnalyzed` carries
the identifier of the question the analysis was built from (the mock looks
the question up by the submitted identifier) and a score; the remaining
randomised payload fields are irrelevant to every claim. -/
inductive MockServerEvent where
  | questionsGenerated (qs : List Question)
  | questionAudio (questionId : String) (audioBlob : Nat)
  | answerAnalyzed (questionId : String) (score : Int)
  | interviewComplete (r : InterviewResults)
deriving Repr, DecidableEq

/-- Handling of one driver message received at time `t` (milliseconds):
each handler schedules its response after the mock's fixed artificial
delay (2000 ms for the batch, 1500 ms for TTS audio, 3000 ms for answer
analysis, 2000 ms for final results).  `request_question_audio` and
`submit_answer` respond only when the identifier is a known question;
`start_interview` installs `mockQuestions` synchronously. -/
def mockHandle (s : MockState) (t : Nat) :
    MockClientMsg → MockState × List (Nat × MockServerEvent)
  | MockClientMsg.startInterview =>
      ({ questions := mockQuestions, interviewStarted := true },
       [(t + 2000, MockServerEvent.questionsGenerated mockQuestions)])
  | MockClientMsg.requestQuestionAudio qid =>
      if (s.questions.find? fun q => q.id == qid).isSome then
        (s, [(t + 1500, MockServerEvent.questionAudio qid 0)])
      else (s, [])
  | MockClientMsg.submitAnswer qid _blob =>
      if (s.questions.find? fun q => q.id == qid).isSome then
        (s, [(t + 3000, MockServerEvent.answerAnalyzed qid 60)])
      else (s, [])
  | MockClientMsg.completeInterview =>
      (s, [(t + 2000, MockServerEvent.interviewComplete mockInterviewResults)])

/-- Process a timed driver script in order, collecting every scheduled
(time, event) pair.  `setTimeout` delivers the events in ascending
scheduled time, so "event A is delivered before event B" is "the time of A
is smaller than the time of B". -/
def mockRun (s : MockState) :
    List (Nat × MockClientMsg) → MockState × List (Nat × MockServerEvent)
  | [] => (s, [])
  | (t, m) :: rest =>
      let (s1, out) := mockHandle s t m
      let (s2, outs) := mockRun s1 rest
      (s2, out ++ outs)

/-- The mock starts with no questions and the interview not started. -/
def initialMockState : MockState :=
  { questions := [], interviewStarted := false }

/-- A value read from localStorage: absent, present but not valid JSON, or
parsing to a profile object.  `JSON.parse` itself is external; a stored
string is modelled together with its parse outcome. -/
inductive Stored (α : Type) where
  | absent
  | malformed
  | ok (a : α)
deriving Repr, DecidableEq

/-- The parsed resume / parsed job description objects.  The orchestrator
never inspects their fields (they are forwarded opaquely in
`start_interview`), so they are modelled by their raw text. -/
structure ParsedProfile where
  raw : String
deriving Repr, DecidableEq

/-- Result of the localStorage-loading effect of the interview page. -/
structure LoadResult where
  navigatedHome : Bool
  parsedResume : Option ParsedProfile
  parsedJobDescription : Option ParsedProfile
  jobDescriptionUrl : String
deriving Repr, DecidableEq

/-- `router.query.jobDescriptionUrl as string || localStorage.getItem(..) || ""`:
the first present non-empty string, else the empty string. -/
def firstUrl (queryUrl lsUrl : Option String) : String :=
  match queryUrl with
  | some u => if u = "" then (lsUrl.getD "") else u
  | none => lsUrl.getD ""

/-- The localStorage-loading effect (interview page, first `useEffect`):
a malformed stored resume navigates home before the job description is
examined; a malformed stored job description navigates home (the resume
having already been set); finally a falsy URL or a missing stored value
navigates home.  Profiles parsed before the failing check remain set. -/
def loadPageEffect (queryUrl lsUrl : Option String)
    (storedResume storedJobDescription : Stored ParsedProfile) : LoadResult :=
  let savedUrl := firstUrl queryUrl lsUrl
  match storedResume with
  | Stored.malformed =>
      { navigatedHome := true, parsedResume := none,
        parsedJobDescription := none, jobDescriptionUrl := savedUrl }
  | r =>
      let pr : Option ParsedProfile :=
        match r with | Stored.ok p => some p | _ => none
      match storedJobDescription with
      | Stored.malformed =>
          { navigatedHome := true, parsedResume := pr,
            parsedJobDescription := none, jobDescriptionUrl := savedUrl }
      | jd =>
          let pj : Option ParsedProfile :=
            match jd with | Stored.ok p => some p | _ => none
          if savedUrl = "" || r = Stored.absent || jd = Stored.absent then
            { navigatedHome := true, parsedResume := pr,
              parsedJobDescription := pj, jobDescriptionUrl := savedUrl }
          else
            { navigatedHome := false, parsedResume := pr,
              parsedJobDescription := pj, jobDescriptionUrl := savedUrl }

/-- The interview page boot: the loading effect runs, then — navigation
being asynchronous, the post-load state is rendered and its effects run
before any unmount — the start/listen effect fires `start_interview` iff
the socket exists, is connected, and both parsed profiles are set (its
early-return guards).  Returns the load result and whether
`start_interview` was emitted. -/
def interviewPageBoot (queryUrl lsUrl : Option String)
    (storedResume storedJobDescription : Stored ParsedProfile)
    (socketPresent isConnected : Bool) : LoadResult × Bool :=
  let res := loadPageEffect queryUrl lsUrl storedResume storedJobDescription
  (res, socketPresent && isConnected &&
        res.parsedResume.isSome && res.parsedJobDescription.isSome)

/-- Is a socket message a `submit_answer`? -/
def isSubmit : SocketMsg → Bool
  | SocketMsg.submitAnswer _ _ => true
  | _ => false

/-- Correlation between a driver message received at time `tm` and a
scheduled mock output `(t, e)`: each handler stamps its response with the
receipt time plus its fixed delay. -/
def outMatches (tm : Nat) (m : MockClientMsg) (t : Nat)
    (e : MockServerEvent) : Prop :=
  (m = MockClientMsg.startInterview ∧ t = tm + 2000 ∧
     e = MockServerEvent.questionsGenerated mockQuestions) ∨
  (∃ qid, m = MockClientMsg.requestQuestionAudio qid ∧ t = tm + 1500 ∧
     e = MockServerEvent.questionAudio qid 0) ∨
  (∃ qid b, m = MockClientMsg.submitAnswer qid b ∧ t = tm + 3000 ∧
     e = MockServerEvent.answerAnalyzed qid 60) ∨
  (m = MockClientMsg.completeInterview ∧ t = tm + 2000 ∧
     e = MockServerEvent.interviewComplete mockInterviewResults)

/-- Scenario: the batch of 8 arrives, the user skips the question audio,
records and submits one answer, the analysis arrives, the 2-second advance
timeout fires, and the final results arrive. -/
def oneCycleTrace : List ClientEvent :=
  [ ClientEvent.questionsGenerated mockQuestions,
    ClientEvent.skipAudio,
    ClientEvent.startRecording,
    ClientEvent.stopRecording 1,
    ClientEvent.answerAnalyzed { questionId := "q1_behavioral_challenge", score := 85 },
    ClientEvent.advanceTimer,
    ClientEvent.interviewComplete mockInterviewResults ]

/-- Scenario: the first answer is submitted and awaiting analysis. -/
def awaitingAnalysisTrace : List ClientEvent :=
  [ ClientEvent.questionsGenerated mockQuestions,
    ClientEvent.skipAudio,
    ClientEvent.startRecording,
    ClientEvent.stopRecording 1 ]

/-- Scenario: after the analysis of the first answer arrives (and before
the 2-second advance timeout fires) the user records and submits again. -/
def doubleSubmitTrace : List ClientEvent :=
  [ ClientEvent.questionsGenerated mockQuestions,
    ClientEvent.skipAudio,
    ClientEvent.startRecording,
    ClientEvent.stopRecording 1,
    ClientEvent.answerAnalyzed { questionId := "q1_behavioral_challenge", score := 85 },
    ClientEvent.startRecording,
    ClientEvent.stopRecording 2 ]

/-- Scenario: a disconnect is delivered while the first submission is
awaiting analysis; the transport then reconnects, a fresh batch and an
analysis arrive, and the user records and submits again. -/
def disconnectTrace : List ClientEvent :=
  [ ClientEvent.questionsGenerated mockQuestions,
    ClientEvent.skipAudio,
    ClientEvent.startRecording,
    ClientEvent.stopRecording 1,
    ClientEvent.disconnect ]

/-- Continuation of `disconnectTrace`: reconnect and submit again. -/
def reconnectTrace : List ClientEvent :=
  disconnectTrace ++
  [ ClientEvent.connect,
    ClientEvent.questionsGenerated mockQuestions,
    ClientEvent.answerAnalyzed { questionId := "q1_behavioral_challenge", score := 85 },
    ClientEvent.skipAudio,
    ClientEvent.startRecording,
    ClientEvent.stopRecording 2 ]

/-- Scenario: a second batch is delivered while the first submission is
still being processed, so question audio is playing while an answer is
outstanding; the user then skips. -/
def skipWhileProcessingTrace : List ClientEvent :=
  [ ClientEvent.questionsGenerated mockQuestions,
    ClientEvent.skipAudio,
    ClientEvent.startRecording,
    ClientEvent.stopRecording 1,
    ClientEvent.questionsGenerated mockQuestions ]

/-- A batch of the wrong size (3 questions instead of 8). -/
def wrongSizeBatch : List Question :=
  mockQuestions.take 3

/-- Driver script for the mock double in which the question audio for the
first question is requested right after `start_interview`. -/
def earlyAudioScript : List (Nat × MockClientMsg) :=
  [ (0, MockClientMsg.startInterview),
    (1, MockClientMsg.requestQuestionAudio "q1_behavioral_challenge") ]

/-- Client-state invariant tying the listener-effect and recorder
snapshots to the current question index (see the module docstring): the
index always lies between the captured index and its successor, and the
recorder snapshot never runs ahead of the index. -/
def SnapInv (s : ClientState) : Prop :=
  s.snapIndex ≤ s.currentQuestionIndex ∧
  s.currentQuestionIndex ≤ s.snapIndex + 1 ∧
  s.recSnapIndex ≤ s.currentQuestionIndex

/-- Is a driver message `start_interview`? -/
def isStartMsg : MockClientMsg → Bool
  | MockClientMsg.startInterview => true
  | _ => false

/-- Is a driver message an audio request or an answer submission? -/
def isReqOrSubmit : MockClientMsg → Bool
  | MockClientMsg.requestQuestionAudio _ => true
  | MockClientMsg.submitAnswer _ _ => true
  | _ => false

/-- The question identifier requested by a driver message, if any. -/
def reqId : MockClientMsg → Option String
  | MockClientMsg.requestQuestionAudio q => some q
  | _ => none

/-- The question identifier submitted by a driver message, if any. -/
def submitId : MockClientMsg → Option String
  | MockClientMsg.submitAnswer q _ => some q
  | _ => none

/-- Is a mock event the question batch? -/
def isBatchEv : MockServerEvent → Bool
  | MockServerEvent.questionsGenerated _ => true
  | _ => false

/-- The question identifier of a `question_audio` event, if any. -/
def audioId : MockServerEvent → Option String
  | MockServerEvent.questionAudio q _ => some q
  | _ => none

/-- The question identifier an `answer_analyzed` event was built from, if
any. -/
def analyzedId : MockServerEvent → Option String
  | MockServerEvent.answerAnalyzed q _ => some q
  | _ => none

/-- A protocol-respecting driver script: start, then request and submit
only after the batch delivery time, requesting before submitting. -/
def orderedScriptW : List (Nat × MockClientMsg) :=
  [ (0, MockClientMsg.startInterview),
    (2500, MockClientMsg.requestQuestionAudio ("q1_behavioral_challenge")),
    (2600, MockClientMsg.submitAnswer ("q1_behavioral_challenge") 5) ]

/-- Scenario: batch delivered, audio skipped, recording started. -/
def recordingReadyTrace : List ClientEvent :=
  [ ClientEvent.questionsGenerated mockQuestions,
    ClientEvent.skipAudio,
    ClientEvent.startRecording ]

/-- The state in which the first question is being recorded. -/
def recStateW : ClientState :=
  (clientRun initialClientState recordingReadyTrace).1

/-- The state in which the first submission awaits analysis. -/
def awaitingStateW : ClientState :=
  (clientRun initialClientState awaitingAnalysisTrace).1

/-- The state just after the mid-analysis disconnect. -/
def discStateW : ClientState :=
  (clientRun initialClientState disconnectTrace).1

/-- The state just after the batch arrived (question audio playing). -/
def playingStateW : ClientState :=
  (clientStep initialClientState (ClientEvent.questionsGenerated mockQuestions)).1

/-- C1: with the batch of 8 delivered, already the FIRST submit/analyze
cycle makes the orchestrator send `complete_interview`: the scheduled
`moveToNextQuestion` reads the question list and index captured by the
listener effect before the batch arrived (`1 < 0` fails), so it never
advances the index and completes after one cycle instead of eight.  The
terminal part of the scenario does hold: after `interview_complete` the
state is complete and the stored `overallScore` 78 lies in [0,100]. -/
theorem c1_completes_after_first_cycle :
    (clientRun initialClientState oneCycleTrace).2 =
      [SocketMsg.submitAnswer ("q1_behavioral_challenge") 1,
       SocketMsg.completeInterview] ∧
    (clientRun initialClientState oneCycleTrace).1.currentQuestionIndex = 0 ∧
    (clientRun initialClientState oneCycleTrace).1.isComplete = true ∧
    (clientRun initialClientState oneCycleTrace).1.storedResults =
      some mockInterviewResults ∧
    0 ≤ mockInterviewResults.overallScore ∧
    mockInterviewResults.overallScore ≤ 100 := by
  refine ⟨?_, ?_, ?_, ?_, ?_, ?_⟩ <;> decide

/-- C2 counterexample: while the submission for `q1_behavioral_challenge`
is outstanding, an `answer_analyzed` event carrying the unknown identifier
`zz_mismatch` is NOT ignored: it clears `isProcessingAnswer` and schedules
the advance routine, changing the session state. -/
theorem c2_mismatch_not_ignored :
    (clientRun initialClientState awaitingAnalysisTrace).1.isProcessingAnswer
        = true ∧
    (clientStep (clientRun initialClientState awaitingAnalysisTrace).1
        (ClientEvent.answerAnalyzed
          { questionId := "zz_mismatch", score := 10 })).1.isProcessingAnswer
        = false ∧
    (clientStep (clientRun initialClientState awaitingAnalysisTrace).1
        (ClientEvent.answerAnalyzed
          { questionId := "zz_mismatch", score := 10 })).1.pendingAdvances
        = 1 := by
  refine ⟨?_, ?_, ?_⟩ <;> decide

/-- C2 amended: the `answer_analyzed` handler never inspects its payload —
two analysis events with arbitrary (in particular mismatched) question
identifiers produce exactly the same transition. -/
theorem c2_analysis_identifier_ignored (s : ClientState)
    (a a' : AnswerAnalysis) :
    clientStep s (ClientEvent.answerAnalyzed a) =
      clientStep s (ClientEvent.answerAnalyzed a') := rfl

/-- C3 counterexample: a batch of 3 questions (≠ 8) is not treated as a
protocol violation: no error is recorded, no message is sent, and question
presentation starts at index 0 exactly as for a batch of 8. -/
theorem c3_wrong_size_batch_accepted :
    wrongSizeBatch.length = 3 ∧
    (clientStep initialClientState
        (ClientEvent.questionsGenerated wrongSizeBatch)).1.connectionError
        = none ∧
    (clientStep initialClientState
        (ClientEvent.questionsGenerated wrongSizeBatch)).1.isGeneratingQuestions
        = false ∧
    (clientStep initialClientState
        (ClientEvent.questionsGenerated wrongSizeBatch)).1.isPlayingQuestion
        = true ∧
    (clientStep initialClientState
        (ClientEvent.questionsGenerated wrongSizeBatch)).1.currentQuestionIndex
        = 0 ∧
    (clientStep initialClientState
        (ClientEvent.questionsGenerated wrongSizeBatch)).2 = [] := by
  refine ⟨?_, ?_, ?_, ?_, ?_, ?_⟩ <;> decide

/-- C4 counterexample: two `submit_answer` messages carrying the same
question identifier are sent before the session is complete — after the
analysis of the first answer arrives (and before the advance timeout
fires) the recorder re-enables on the same question. -/
theorem c4_double_submission :
    (clientRun initialClientState doubleSubmitTrace).2 =
      [SocketMsg.submitAnswer ("q1_behavioral_challenge") 1,
       SocketMsg.submitAnswer ("q1_behavioral_challenge") 2] ∧
    (clientRun initialClientState doubleSubmitTrace).1.isComplete = false := by
  refine ⟨?_, ?_⟩ <;> decide

/-- C5 counterexample: a disconnect delivered while the first submission
awaits analysis records no error (`connectionError` stays `none`, the
session is not complete, the submission still outstanding); and after the
automatic `start_interview` re-emission on reconnect a further
`submit_answer` is sent for the same session instance. -/
theorem c5_disconnect_not_errored :
    (clientRun initialClientState disconnectTrace).1.isProcessingAnswer
        = true ∧
    (clientRun initialClientState disconnectTrace).1.isConnected = false ∧
    (clientRun initialClientState disconnectTrace).1.connectionError = none ∧
    (clientRun initialClientState disconnectTrace).1.isComplete = false ∧
    (clientRun initialClientState reconnectTrace).2 =
      [SocketMsg.submitAnswer ("q1_behavioral_challenge") 1,
       SocketMsg.startInterview,
       SocketMsg.submitAnswer ("q1_behavioral_challenge") 2] := by
  refine ⟨?_, ?_, ?_, ?_, ?_⟩ <;> decide

/-- C9 counterexample: a skip issued while question audio is playing but
an answer submission is outstanding (reachable when a batch is delivered
during processing) clears `audioPlaying` and sends nothing, but recording
does NOT become enabled. -/
theorem c9_skip_does_not_always_enable :
    (clientRun initialClientState skipWhileProcessingTrace).1.isPlayingQuestion
        = true ∧
    (clientStep (clientRun initialClientState skipWhileProcessingTrace).1
        ClientEvent.skipAudio).2 = [] ∧
    (clientStep (clientRun initialClientState skipWhileProcessingTrace).1
        ClientEvent.skipAudio).1.isPlayingQuestion = false ∧
    recordingEnabled
      (clientStep (clientRun initialClientState skipWhileProcessingTrace).1
        ClientEvent.skipAudio).1 = false := by
  refine ⟨?_, ?_, ?_, ?_⟩ <;> decide

/-- C8 counterexample: right after the first submission the session holds
an Answer for the question at index 0 while the current index is still 0 —
the Answer exists before the session has advanced past that index. -/
theorem c8_answer_before_advance :
    (clientRun initialClientState awaitingAnalysisTrace).1.answers =
      [(("q1_behavioral_challenge"), 1)] ∧
    (clientRun initialClientState awaitingAnalysisTrace).1.currentQuestionIndex
        = 0 ∧
    ((clientRun initialClientState awaitingAnalysisTrace).1.questions.get? 0).map
        Question.id = some ("q1_behavioral_challenge") := by
  refine ⟨?_, ?_, ?_⟩ <;> decide

/-- C7 counterexample: driving the mock double with an audio request sent
right after `start_interview` schedules the `question_audio` event at
1501 ms, before the `questions_generated` batch at 2000 ms — the batch is
not delivered before all question audio. -/
theorem c7_audio_before_batch :
    (mockRun initialMockState earlyAudioScript).2 =
      [(2000, MockServerEvent.questionsGenerated mockQuestions),
       (1501, MockServerEvent.questionAudio ("q1_behavioral_challenge") 0)] ∧
    1501 < 2000 := by
  refine ⟨?_, ?_⟩ <;> decide

/-- C10 counterexample: with the job-description URL missing but both
stored profiles present and parseable, the page navigates home — yet both
profiles were set before the missing-URL check and navigation is
asynchronous, so the start effect still runs and `start_interview` IS
emitted. -/
theorem c10_missing_url_still_emits :
    (interviewPageBoot none none (Stored.ok { raw := "resume" })
        (Stored.ok { raw := "jobDescription" }) true true).1.navigatedHome
        = true ∧
    (interviewPageBoot none none (Stored.ok { raw := "resume" })
        (Stored.ok { raw := "jobDescription" }) true true).2 = true := by
  refine ⟨?_, ?_⟩ <;> decide

/-- Every client step preserves the snapshot invariant. -/
theorem snapInv_step (s : ClientState) (e : ClientEvent) (h : SnapInv s) :
    SnapInv (clientStep s e).1 := by
  obtain ⟨h1, h2, h3⟩ := h
  cases e
  all_goals
    simp only [clientStep, onQuestionsGenerated, onQuestionAudio,
      onAnswerAnalyzed, onInterviewComplete, advanceTimerFire,
      moveToNextQuestion, playQuestionAudio, skipAudioClick,
      startRecordingClick, stopRecordingClick, handleAudioData,
      onDisconnect, onConnect, startListenEffect, recorderDisabled, SnapInv]
    repeat' split
    all_goals refine ⟨?_, ?_, ?_⟩ <;> (try simp) <;> omega

/-- Under the snapshot invariant, no client step decreases the current
question index. -/
theorem index_monotone_step (s : ClientState) (e : ClientEvent)
    (h : SnapInv s) :
    s.currentQuestionIndex ≤ (clientStep s e).1.currentQuestionIndex := by
  obtain ⟨h1, h2, h3⟩ := h
  cases e
  all_goals
    simp only [clientStep, onQuestionsGenerated, onQuestionAudio,
      onAnswerAnalyzed, onInterviewComplete, advanceTimerFire,
      moveToNextQuestion, playQuestionAudio, skipAudioClick,
      startRecordingClick, stopRecordingClick, handleAudioData,
      onDisconnect, onConnect, startListenEffect, recorderDisabled]
    repeat' split
    all_goals (try simp) <;> omega

/-- The snapshot invariant holds in every reachable state. -/
theorem reachable_snapInv {s : ClientState} (h : Reachable s) : SnapInv s := by
  induction h with
  | init => exact ⟨Nat.le_refl 0, Nat.le_succ 0, Nat.le_refl 0⟩
  | step e _ ih => exact snapInv_step _ e ih

/-- Every scheduled mock output is correlated, by `outMatches`, to a
driver message of the script. -/
theorem mockRun_out_mem (s : MockState)
    (script : List (Nat × MockClientMsg)) (p : Nat × MockServerEvent)
    (hp : p ∈ (mockRun s script).2) :
    ∃ q ∈ script, outMatches q.1 q.2 p.1 p.2 := by
  induction script generalizing s with
  | nil => simp [mockRun] at hp
  | cons hd rest ih =>
      obtain ⟨tm, m⟩ := hd
      simp only [mockRun, List.mem_append] at hp
      cases hp with
      | inl hin =>
          refine ⟨(tm, m), List.mem_cons_self _ _, ?_⟩
          cases m with
          | startInterview =>
              simp only [mockHandle, List.mem_singleton] at hin
              subst hin
              exact Or.inl ⟨rfl, rfl, rfl⟩
          | requestQuestionAudio qid =>
              simp only [mockHandle] at hin
              split at hin
              · simp only [List.mem_singleton] at hin
                subst hin
                exact Or.inr (Or.inl ⟨qid, rfl, rfl, rfl⟩)
              · simp at hin
          | submitAnswer qid b =>
              simp only [mockHandle] at hin
              split at hin
              · simp only [List.mem_singleton] at hin
                subst hin
                exact Or.inr (Or.inr (Or.inl ⟨qid, b, rfl, rfl, rfl⟩))
              · simp at hin
          | completeInterview =>
              simp only [mockHandle, List.mem_singleton] at hin
              subst hin
              exact Or.inr (Or.inr (Or.inr ⟨rfl, rfl, rfl⟩))
      | inr hin =>
          obtain ⟨q, hq, hma⟩ := ih _ hin
          exact ⟨q, List.mem_cons_of_mem _ hq, hma⟩

/-- C3 amended: while the listeners are attached, a `questions_generated`
batch of ANY size (no size check exists) is stored as-is, ends question
generation and starts presentation with audio marked playing; no message
is sent, no error state is entered, and the index is left at its current
value (0 on first receipt). -/
theorem c3_any_batch_starts_presentation (s : ClientState)
    (qs : List Question) (h : s.isConnected = true) :
    clientStep s (ClientEvent.questionsGenerated qs) =
      ({ s with questions := qs, isGeneratingQuestions := false,
                isPlayingQuestion := true }, []) := by
  cases qs with
  | nil => simp [clientStep, h, onQuestionsGenerated]
  | cons q rest =>
      simp [clientStep, h, onQuestionsGenerated, playQuestionAudio]

/-- Witness for `c3_any_batch_starts_presentation` at the initial state
and the wrong-size batch. -/
theorem c3_any_batch_starts_presentation_witness :
    initialClientState.isConnected = true ∧
    clientStep initialClientState
        (ClientEvent.questionsGenerated wrongSizeBatch) =
      ({ initialClientState with questions := wrongSizeBatch,
                                 isGeneratingQuestions := false,
                                 isPlayingQuestion := true }, []) :=
  ⟨by decide,
   c3_any_batch_starts_presentation initialClientState wrongSizeBatch
     (by decide)⟩

/-- C4 amended: while a submission is outstanding (`isProcessingAnswer`
set, recorder idle), every event other than an analysis result sends no
`submit_answer` and leaves the submission outstanding with the recorder
idle — so a second submission cannot happen while the first is pending;
only after the analysis arrives can the recorder re-enable (and then, the
index being unchanged until the advance timeout, a duplicate submission
for the same identifier is possible, cf. the counterexample). -/
theorem c4_outstanding_blocks (s : ClientState) (e : ClientEvent)
    (hp : s.isProcessingAnswer = true) (hr : s.isRecording = false)
    (hna : ∀ a, e ≠ ClientEvent.answerAnalyzed a) :
    (clientStep s e).2.filter isSubmit = [] ∧
    (clientStep s e).1.isProcessingAnswer = true ∧
    (clientStep s e).1.isRecording = false := by
  cases e
  case answerAnalyzed a => exact absurd rfl (hna a)
  all_goals
    simp only [clientStep, onQuestionsGenerated, onQuestionAudio,
      onInterviewComplete, advanceTimerFire, moveToNextQuestion,
      playQuestionAudio, skipAudioClick, startRecordingClick,
      stopRecordingClick, handleAudioData, onDisconnect, onConnect,
      startListenEffect, recorderDisabled]
    repeat' split
    all_goals simp_all [isSubmit, hp, hr]

/-- Witness for `c4_outstanding_blocks` in the awaiting-analysis state
with a skip click. -/
theorem c4_outstanding_blocks_witness :
    awaitingStateW.isProcessingAnswer = true ∧
    awaitingStateW.isRecording = false ∧
    (clientStep awaitingStateW ClientEvent.skipAudio).2.filter isSubmit
        = [] ∧
    (clientStep awaitingStateW ClientEvent.skipAudio).1.isProcessingAnswer
        = true ∧
    (clientStep awaitingStateW ClientEvent.skipAudio).1.isRecording
        = false := by
  have h := c4_outstanding_blocks awaitingStateW ClientEvent.skipAudio
    (by decide) (by decide) (fun a h => nomatch h)
  exact ⟨by decide, by decide, h.1, h.2.1, h.2.2⟩

/-- C5 amended: a disconnect only clears the connected flag — no error
state is entered and no session field changes; while disconnected the
interview screen is gone, so skip and record clicks are impossible
(no-ops sending nothing); and a reconnect automatically re-emits
`start_interview` (silent restart) rather than requiring an explicit user
restart. -/
theorem c5_disconnect_flag_only (s : ClientState) :
    clientStep s ClientEvent.disconnect =
      ({ s with isConnected := false }, []) ∧
    (s.isConnected = false →
      ∀ b, clientStep s ClientEvent.skipAudio = (s, []) ∧
           clientStep s ClientEvent.startRecording = (s, []) ∧
           clientStep s (ClientEvent.stopRecording b) = (s, [])) ∧
    (clientStep s ClientEvent.connect).2 = [SocketMsg.startInterview] := by
  refine ⟨rfl, ?_, rfl⟩
  intro h b
  refine ⟨?_, ?_, ?_⟩ <;>
    simp [clientStep, skipAudioClick, startRecordingClick,
          stopRecordingClick, uiActive, h]

/-- Witness for `c5_disconnect_flag_only` in the state reached by the
mid-analysis disconnect. -/
theorem c5_disconnect_flag_only_witness :
    discStateW.isConnected = false ∧
    clientStep discStateW ClientEvent.disconnect =
      ({ discStateW with isConnected := false }, []) ∧
    clientStep discStateW ClientEvent.skipAudio = (discStateW, []) ∧
    clientStep discStateW ClientEvent.startRecording = (discStateW, []) ∧
    clientStep discStateW (ClientEvent.stopRecording 3) = (discStateW, []) ∧
    (clientStep discStateW ClientEvent.connect).2 =
      [SocketMsg.startInterview] := by
  have h := c5_disconnect_flag_only discStateW
  have h2 := h.2.1 (by decide) 3
  exact ⟨by decide, h.1, h2.1, h2.2.1, h2.2.2, h.2.2⟩

/-- C6: recording is enabled only when no question audio is playing (the
`disabled` prop is the disjunction `isProcessingAnswer ||
isPlayingQuestion`), and a start-recording click in any state whose audio
is marked playing leaves the recorder off (`startRecording` returns early
when disabled). -/
theorem c6_recording_excludes_playing (s : ClientState) :
    (recordingEnabled s && s.isPlayingQuestion) = false ∧
    (clientStep { s with isPlayingQuestion := true }
        ClientEvent.startRecording).1.isRecording = s.isRecording := by
  constructor
  · cases hp : s.isPlayingQuestion <;>
      simp [recordingEnabled, recorderDisabled, hp]
  · simp [clientStep, startRecordingClick, recorderDisabled]

/-- C7 amended: for every driver script in which all `start_interview`
messages share one time `t0` and every audio request or submission occurs
no earlier than the batch delivery time `t0 + 2000` (with each question
requested no later than it is submitted), the mock delivers the batch at
exactly `t0 + 2000`, every audio and analysis event strictly after the
batch, each analysis strictly after a submission for the identifier it was
built from, and each question audio strictly before that question's
analysis.  (Without these driving constraints the order can be violated,
cf. the counterexample.) -/
theorem c7_causal_order (script : List (Nat × MockClientMsg)) (t0 : Nat)
    (hstart : ∀ p ∈ script, isStartMsg p.2 = true → p.1 = t0)
    (hlate : ∀ p ∈ script, isReqOrSubmit p.2 = true → t0 + 2000 ≤ p.1)
    (hreqsub : ∀ p ∈ script, ∀ p' ∈ script, reqId p.2 ≠ none →
        reqId p.2 = submitId p'.2 → p.1 ≤ p'.1) :
    (∀ p ∈ (mockRun initialMockState script).2,
        isBatchEv p.2 = true → p.1 = t0 + 2000) ∧
    (∀ p ∈ (mockRun initialMockState script).2,
        audioId p.2 ≠ none → t0 + 2000 < p.1) ∧
    (∀ p ∈ (mockRun initialMockState script).2, ∀ qid,
        analyzedId p.2 = some qid →
        t0 + 2000 < p.1 ∧
        ∃ q ∈ script, submitId q.2 = some qid ∧ q.1 < p.1) ∧
    (∀ p ∈ (mockRun initialMockState script).2,
        ∀ p' ∈ (mockRun initialMockState script).2,
        audioId p.2 ≠ none → audioId p.2 = analyzedId p'.2 →
        p.1 < p'.1) := by
  refine ⟨?_, ?_, ?_, ?_⟩
  · intro p hp hb
    obtain ⟨q, hq, hout⟩ := mockRun_out_mem _ _ _ hp
    rcases hout with ⟨hm, ht, he⟩ | ⟨qid, hm, ht, he⟩ |
      ⟨qid, b, hm, ht, he⟩ | ⟨hm, ht, he⟩
    · have := hstart q hq (by rw [hm]; rfl); omega
    · rw [he] at hb; simp [isBatchEv] at hb
    · rw [he] at hb; simp [isBatchEv] at hb
    · rw [he] at hb; simp [isBatchEv] at hb
  · intro p hp ha
    obtain ⟨q, hq, hout⟩ := mockRun_out_mem _ _ _ hp
    rcases hout with ⟨hm, ht, he⟩ | ⟨qid, hm, ht, he⟩ |
      ⟨qid, b, hm, ht, he⟩ | ⟨hm, ht, he⟩
    · rw [he] at ha; simp [audioId] at ha
    · have := hlate q hq (by rw [hm]; rfl); omega
    · rw [he] at ha; simp [audioId] at ha
    · rw [he] at ha; simp [audioId] at ha
  · intro p hp qid hqid
    obtain ⟨q, hq, hout⟩ := mockRun_out_mem _ _ _ hp
    rcases hout with ⟨hm, ht, he⟩ | ⟨qid', hm, ht, he⟩ |
      ⟨qid', b, hm, ht, he⟩ | ⟨hm, ht, he⟩
    · rw [he] at hqid; simp [analyzedId] at hqid
    · rw [he] at hqid; simp [analyzedId] at hqid
    · have hl := hlate q hq (by rw [hm]; rfl)
      rw [he] at hqid
      simp [analyzedId] at hqid
      refine ⟨by omega, q, hq, ?_, by omega⟩
      rw [hm, hqid]; rfl
    · rw [he] at hqid; simp [analyzedId] at hqid
  · intro p hp p' hp' ha heq
    obtain ⟨q, hq, hout⟩ := mockRun_out_mem _ _ _ hp
    obtain ⟨q', hq', hout'⟩ := mockRun_out_mem _ _ _ hp'
    rcases hout with ⟨hm, ht, he⟩ | ⟨qid, hm, ht, he⟩ |
      ⟨qid, b, hm, ht, he⟩ | ⟨hm, ht, he⟩
    · rw [he] at ha; simp [audioId] at ha
    · rcases hout' with ⟨hm', ht', he'⟩ | ⟨qid', hm', ht', he'⟩ |
        ⟨qid', b', hm', ht', he'⟩ | ⟨hm', ht', he'⟩
      · rw [he, he'] at heq; simp [audioId, analyzedId] at heq
      · rw [he, he'] at heq; simp [audioId, analyzedId] at heq
      · rw [he, he'] at heq
        simp [audioId, analyzedId] at heq
        have hle : q.1 ≤ q'.1 := by
          refine hreqsub q hq q' hq' ?_ ?_
          · rw [hm]; simp [reqId]
          · rw [hm, hm', heq]; rfl
        omega
      · rw [he, he'] at heq; simp [audioId, analyzedId] at heq
    · rw [he] at ha; simp [audioId] at ha
    · rw [he] at ha; simp [audioId] at ha

/-- Witness for `c7_causal_order` on a protocol-respecting script. -/
theorem c7_causal_order_witness :
    (∀ p ∈ orderedScriptW, isStartMsg p.2 = true → p.1 = 0) ∧
    (∀ p ∈ orderedScriptW, isReqOrSubmit p.2 = true → 0 + 2000 ≤ p.1) ∧
    (∀ p ∈ orderedScriptW, ∀ p' ∈ orderedScriptW, reqId p.2 ≠ none →
        reqId p.2 = submitId p'.2 → p.1 ≤ p'.1) ∧
    (∀ p ∈ (mockRun initialMockState orderedScriptW).2,
        isBatchEv p.2 = true → p.1 = 0 + 2000) := by
  have h := c7_causal_order orderedScriptW 0 (by decide) (by decide)
    (by decide)
  exact ⟨by decide, by decide, by decide, h.1⟩

/-- C8 amended: in every reachable state the current index never
decreases under any event and the recorder snapshot index never exceeds
the current index; an Answer is only ever inserted for the question at the
recorder snapshot index — so answers exist only for indices the session
has already reached (not only for indices it has advanced past, cf. the
counterexample). -/
theorem c8_index_monotone_answers :
    (∀ s e, Reachable s →
        s.currentQuestionIndex ≤ (clientStep s e).1.currentQuestionIndex) ∧
    (∀ s, Reachable s → s.recSnapIndex ≤ s.currentQuestionIndex) ∧
    (∀ s b q, uiActive s = true → s.isRecording = true →
        s.recSnapQuestions.get? s.recSnapIndex = some q →
        (clientStep s (ClientEvent.stopRecording b)).1.answers =
          (q.id, b) :: s.answers ∧
        (clientStep s (ClientEvent.stopRecording b)).2 =
          [SocketMsg.submitAnswer q.id b]) := by
  refine ⟨fun s e hs => index_monotone_step s e (reachable_snapInv hs),
          fun s hs => (reachable_snapInv hs).2.2, ?_⟩
  intro s b q hu hr hget
  rw [List.get?_eq_getElem?] at hget
  constructor <;>
    simp [clientStep, stopRecordingClick, handleAudioData, hu, hr, hget]

/-- Witness for `c8_index_monotone_answers` at the initial state and the
first-question recording state. -/
theorem c8_index_monotone_answers_witness :
    initialClientState.currentQuestionIndex ≤
      (clientStep initialClientState
        ClientEvent.advanceTimer).1.currentQuestionIndex ∧
    initialClientState.recSnapIndex ≤
      initialClientState.currentQuestionIndex ∧
    uiActive recStateW = true ∧
    recStateW.isRecording = true ∧
    recStateW.recSnapQuestions.get? recStateW.recSnapIndex =
      some mockQuestions.headI ∧
    (clientStep recStateW (ClientEvent.stopRecording 7)).1.answers =
      (mockQuestions.headI.id, 7) :: recStateW.answers ∧
    (clientStep recStateW (ClientEvent.stopRecording 7)).2 =
      [SocketMsg.submitAnswer mockQuestions.headI.id 7] := by
  have h := c8_index_monotone_answers
  have h3 := h.2.2 recStateW 7 mockQuestions.headI (by decide) (by decide)
    (by decide)
  exact ⟨h.1 initialClientState ClientEvent.advanceTimer Reachable.init,
         h.2.1 initialClientState Reachable.init,
         by decide, by decide, by decide, h3.1, h3.2⟩

/-- C9 amended: a skip click on the rendered interview screen while audio
is playing clears `isPlayingQuestion` and sends no transport message; and
recording thereby becomes enabled provided no answer submission is
outstanding. -/
theorem c9_skip_clears_playing (s : ClientState)
    (hu : uiActive s = true) (hp : s.isPlayingQuestion = true) :
    clientStep s ClientEvent.skipAudio =
      ({ s with isPlayingQuestion := false }, []) ∧
    (s.isProcessingAnswer = false →
      recordingEnabled { s with isPlayingQuestion := false } = true) := by
  constructor
  · simp [clientStep, skipAudioClick, hu, hp]
  · intro hpr
    simp [uiActive] at hu
    simp [recordingEnabled, recorderDisabled, uiActive, hpr, hu]

/-- Witness for `c9_skip_clears_playing` in the state where the batch just
arrived and its audio is playing. -/
theorem c9_skip_clears_playing_witness :
    uiActive playingStateW = true ∧
    playingStateW.isPlayingQuestion = true ∧
    clientStep playingStateW ClientEvent.skipAudio =
      ({ playingStateW with isPlayingQuestion := false }, []) ∧
    playingStateW.isProcessingAnswer = false ∧
    recordingEnabled { playingStateW with isPlayingQuestion := false }
        = true := by
  have h := c9_skip_clears_playing playingStateW (by decide) (by decide)
  exact ⟨by decide, by decide, h.1, by decide, h.2 (by decide)⟩

/-- C10 amended: when the stored resume or job description is missing or
unparseable the page navigates home and `start_interview` is never
emitted (the profile guard fails); and `start_interview` is emitted only
with the socket present and connected and both profiles parsed.  (When
only the URL is missing the page also navigates home but the emission
still happens, cf. the counterexample.) -/
theorem c10_profile_guard (qu lu : Option String)
    (r jd : Stored ParsedProfile) (sp ic : Bool) :
    ((r = Stored.absent ∨ r = Stored.malformed ∨
      jd = Stored.absent ∨ jd = Stored.malformed) →
      (loadPageEffect qu lu r jd).navigatedHome = true ∧
      (interviewPageBoot qu lu r jd sp ic).2 = false) ∧
    ((interviewPageBoot qu lu r jd sp ic).2 = true →
      sp = true ∧ ic = true ∧
      (∃ p, r = Stored.ok p) ∧ (∃ p, jd = Stored.ok p)) := by
  cases r <;> cases jd <;>
    simp [interviewPageBoot, loadPageEffect] <;>
    (try split) <;> (try simp) <;> (try tauto)

/-- Witness for `c10_profile_guard` with an absent stored resume. -/
theorem c10_profile_guard_witness :
    ((Stored.absent : Stored ParsedProfile) = Stored.absent ∨
     (Stored.absent : Stored ParsedProfile) = Stored.malformed ∨
     (Stored.ok { raw := "jd" } : Stored ParsedProfile) = Stored.absent ∨
     (Stored.ok { raw := "jd" } : Stored ParsedProfile) = Stored.malformed) ∧
    (loadPageEffect (some ("u")) none Stored.absent
        (Stored.ok { raw := "jd" })).navigatedHome = true ∧
    (interviewPageBoot (some ("u")) none Stored.absent
        (Stored.ok { raw := "jd" }) true true).2 = false := by
  have h := (c10_profile_guard (some ("u")) none Stored.absent
    (Stored.ok { raw := "jd" }) true true).1 (Or.inl rfl)
  exact ⟨Or.inl rfl, h.1, h.2⟩

end InterviewBot
